import Mathlib

/-
Verification of the HPM Particle Sensor Monitor protocol core
(src/main.py), shallowly embedded in Lean 4.

Embedding conventions:
 - bytes are Nat values (with a `< 256` hypothesis where byte-ness matters);
 - a HexToken is a Lean String (Python produces them with
   hexlify(...).decode().upper() chopped into 2-char pieces);
 - Python code that can raise an exception is embedded as an
   Option- or Except-valued function, `none` / `.error` modelling the
   raised exception (IndexError on data[i], ValueError on int(s, 16));
 - Qt signal emissions are modelled as explicit event lists in the
   order the code emits them.
-/

/-- SensorEvent: the classification of one received frame, as described by the
spec data model; `Monitor.handle_data_read` realises it through its branch
structure. -/
inductive SensorEvent where
  | OneshotReading (pm25 pm10 : Nat)
  | AutoReading (pm25 pm10 : Nat)
  | Ack
  | SensorError
  | UnknownFrame
deriving DecidableEq, Repr

/-- One reading-updated signal emission
(`update_pm25_signal.emit` / `update_pm10_signal.emit` in src/main.py). -/
inductive Emit where
  | pm25 (v : Nat)
  | pm10 (v : Nat)
deriving DecidableEq, Repr

/-- Uppercase hexadecimal digit character for a value 0..15. -/
def hexDigitChar (n : Nat) : Char :=
  if n < 10 then Char.ofNat (48 + n) else Char.ofNat (65 + (n - 10))

/-- HexToken of one byte: its 2-character uppercase hexadecimal
representation (spec data model). -/
def hexToken (b : Nat) : String :=
  String.mk [hexDigitChar (b / 16), hexDigitChar (b % 16)]

/-- Value of one hexadecimal digit character, case-insensitive;
`none` when the character is not a hex digit. -/
def hexDigitVal (c : Char) : Option Nat :=
  if 48 ≤ c.toNat ∧ c.toNat ≤ 57 then some (c.toNat - 48)
  else if 97 ≤ c.toNat ∧ c.toNat ≤ 102 then some (c.toNat - 97 + 10)
  else if 65 ≤ c.toNat ∧ c.toNat ≤ 70 then some (c.toNat - 65 + 10)
  else none

/-- Embedding of Python int(s, 16) restricted to plain hex-digit strings:
case-insensitive base-16 parse, `none` (ValueError) on the empty string or
any non-hex-digit character. -/
def hexVal (s : String) : Option Nat :=
  if s.data.isEmpty then none
  else s.data.foldl
    (fun acc c => acc.bind fun a => (hexDigitVal c).map fun d => 16 * a + d)
    (some 0)

/-- Embedding of int(data[i], 16): `none` models IndexError (index out of
range) or ValueError (token not hex). -/
def tok (data : List String) (i : Nat) : Option Nat :=
  (data[i]?).bind hexVal

/-- Embedding of Monitor.handle_data_read (src/main.py lines 202-236).
Returns `.ok (event, emitted signals)` on normal completion and
`.error emittedSoFar` when an exception escapes (the payload records the
signals already emitted before the exception).

The Python body is a sequence of top-level `if int(data[0],16) == K`
guards with early returns; since the guard constants 0x96, 0xA5, 0x40,
0x42 are pairwise distinct, at most one guard matches and the sequential
fall-through is equivalent to this if/else chain, with the shared final
fall-through producing UnknownFrame. -/
def handle_data_read (data : List String) :
    Except (List Emit) (SensorEvent × List Emit) :=
  match tok data 0 with
  | none => .error []
  | some d0 =>
    if d0 = 0x96 then
      match tok data 1 with
      | none => .error []
      | some d1 =>
        if d1 = 0x96 then .ok (.SensorError, [])
        else .ok (.UnknownFrame, [])
    else if d0 = 0xA5 then
      match tok data 1 with
      | none => .error []
      | some d1 =>
        if d1 = 0xA5 then .ok (.Ack, [])
        else .ok (.UnknownFrame, [])
    else if d0 = 0x40 then
      match tok data 1 with
      | none => .error []
      | some d1 =>
        if d1 = 0x05 then
          match tok data 2 with
          | none => .error []
          | some d2 =>
            if d2 = 0x04 then
              match tok data 3, tok data 4 with
              | some a, some b =>
                match tok data 5, tok data 6 with
                | some c, some d =>
                  .ok (.OneshotReading (a * 256 + b) (c * 256 + d),
                       [.pm25 (a * 256 + b), .pm10 (c * 256 + d)])
                | _, _ => .error [.pm25 (a * 256 + b)]
              | _, _ => .error []
            else .ok (.UnknownFrame, [])
        else .ok (.UnknownFrame, [])
    else if d0 = 0x42 then
      match tok data 1 with
      | none => .error []
      | some d1 =>
        if d1 = 0x4d then
          match tok data 6, tok data 7 with
          | some a, some b =>
            match tok data 8, tok data 9 with
            | some c, some d =>
              .ok (.AutoReading (a * 256 + b) (c * 256 + d),
                   [.pm25 (a * 256 + b), .pm10 (c * 256 + d)])
            | _, _ => .error [.pm25 (a * 256 + b)]
          | _, _ => .error []
        else .ok (.UnknownFrame, [])
    else .ok (.UnknownFrame, [])

/-- Lowercase hexadecimal digit character for a value 0..15, as produced by
binascii.hexlify. -/
def hexDigitCharLower (n : Nat) : Char :=
  if n < 10 then Char.ofNat (48 + n) else Char.ofNat (97 + (n - 10))

/-- Embedding of binascii.hexlify on the drained buffer bytes: two lowercase
hex digit characters per byte, concatenated in order. -/
def hexlify (chunk : List Nat) : List Char :=
  chunk.flatMap fun b => [hexDigitCharLower (b / 16), hexDigitCharLower (b % 16)]

/-- Embedding of Python str.upper on a character list. -/
def strUpper (s : List Char) : List Char := s.map Char.toUpper

/-- Embedding of list(map(join, zip(*[iter(s)] * 2))): groups a character
list into consecutive 2-character strings, dropping a trailing odd
character. -/
def pairUp : List Char → List String
  | c1 :: c2 :: rest => String.mk [c1, c2] :: pairUp rest
  | _ => []

/-- Embedding of the tail of one DataCollector.run loop iteration
(src/main.py lines 266-274): given the bytes drained into the buffer this
iteration, the list of data_read signal emissions it performs (each
carrying one HexToken list). An empty buffer emits nothing; a non-empty
buffer is hexlified, uppercased, chopped into 2-character tokens and
emitted exactly once. -/
def drainEmits (chunk : List Nat) : List (List String) :=
  if chunk.isEmpty then [] else [pairUp (strUpper (hexlify chunk))]

/-- One observed iteration of the DataCollector.run while-loop: the value
of the alive flag read at the top of the iteration, the bytes the drain
would collect, and whether an I/O exception is raised inside the try body
of this iteration. -/
structure IterInput where
  alive : Bool
  chunk : List Nat
  ioError : Bool
deriving DecidableEq, Repr

/-- An observable event of the reader loop: a data_read emission of one
token list, or logger.exception on a caught exception. -/
inductive ReaderEvent where
  | emitData (tokens : List String)
  | logException
deriving DecidableEq, Repr

/-- Embedding of the DataCollector.run loop (src/main.py lines 253-277)
over a finite script of observed iterations. Each iteration first checks
the alive flag (while-condition at the top); if it is false the loop
exits at once. Otherwise, if an exception is raised inside the try body
the code logs it and returns (terminal, no retry); else the drained
buffer is tokenized and emitted per `drainEmits` and the loop continues.
The script models the successive states the loop would observe; an
exhausted script ends the observation. -/
def DataCollector_run : List IterInput → List ReaderEvent
  | [] => []
  | it :: rest =>
    if it.alive then
      if it.ioError then [ReaderEvent.logException]
      else (drainEmits it.chunk).map ReaderEvent.emitData ++ DataCollector_run rest
    else []

/-- The CMD enum (src/main.py lines 28-33). -/
inductive CMD where
  | ReadParticleMeasuringResult
  | StartParticleMeasurement
  | StopParticleMeasurement
  | EnableAutoSend
  | StopAutoSend
deriving DecidableEq, Repr

/-- The fixed 4-byte payload of each command (the Enum member values). -/
def CMD.value : CMD → List Nat
  | .ReadParticleMeasuringResult => [0x68, 0x01, 0x04, 0x93]
  | .StartParticleMeasurement => [0x68, 0x01, 0x01, 0x96]
  | .StopParticleMeasurement => [0x68, 0x01, 0x02, 0x95]
  | .EnableAutoSend => [0x68, 0x01, 0x40, 0x57]
  | .StopAutoSend => [0x68, 0x01, 0x20, 0x77]

/-- The symbolic name of each command (the Enum member names). -/
def CMD.name : CMD → String
  | .ReadParticleMeasuringResult => "ReadParticleMeasuringResult"
  | .StartParticleMeasurement => "StartParticleMeasurement"
  | .StopParticleMeasurement => "StopParticleMeasurement"
  | .EnableAutoSend => "EnableAutoSend"
  | .StopAutoSend => "StopAutoSend"

/-- All members of the CMD enum, in declaration order. -/
def CMD.all : List CMD :=
  [.ReadParticleMeasuringResult, .StartParticleMeasurement,
   .StopParticleMeasurement, .EnableAutoSend, .StopAutoSend]

/-- Embedding of Enum name lookup CMD[selected]. -/
def CMD.fromName (s : String) : Option CMD :=
  CMD.all.find? fun c => c.name == s

/-- Embedding of Enum value lookup CMD(bytes). -/
def CMD.fromValue (v : List Nat) : Option CMD :=
  CMD.all.find? fun c => c.value == v

/-- Embedding of MonitorWindow.send_cmd (src/main.py lines 141-145): look
the selected name up in the CMD enum and take the bytes written to the
serial handle. -/
def send_cmd (selected : String) : Option (List Nat) :=
  (CMD.fromName selected).map CMD.value

/-- One step of the teardown path, in program order: the statements of
MonitorWindow.stop_monitor and Monitor.close_connection. -/
inductive TeardownStep where
  | setAliveFalse
  | terminateReader
  | waitReader
  | closeHandle
  | emitPm25 (v : Nat)
  | emitPm10 (v : Nat)
deriving DecidableEq, Repr

/-- Embedding of the teardown statements of MonitorWindow.stop_monitor
(src/main.py lines 127-130): set the alive flag false, terminate the
reader thread, wait for it. -/
def stop_monitor : List TeardownStep :=
  [TeardownStep.setAliveFalse, TeardownStep.terminateReader, TeardownStep.waitReader]

/-- Embedding of Monitor.close_connection (src/main.py lines 238-242),
connected to the finished signal of the reader thread: close the serial
handle, then emit pm10 = 0 and pm25 = 0. -/
def close_connection : List TeardownStep :=
  [TeardownStep.closeHandle, TeardownStep.emitPm10 0, TeardownStep.emitPm25 0]

/-- The full close() path: stop_monitor runs first and waits for the
reader to finish; the finished signal then runs close_connection. -/
def closeSequence : List TeardownStep := stop_monitor ++ close_connection

/-- The value carried by the last emitPm25 action of a trace, if any. -/
def lastPm25 (l : List TeardownStep) : Option Nat :=
  (l.filterMap fun a =>
    match a with
    | TeardownStep.emitPm25 v => some v
    | _ => none).getLast?

/-- The value carried by the last emitPm10 action of a trace, if any. -/
def lastPm10 (l : List TeardownStep) : Option Nat :=
  (l.filterMap fun a =>
    match a with
    | TeardownStep.emitPm10 v => some v
    | _ => none).getLast?

theorem hexDigitVal_hexDigitChar (n : Nat) (h : n < 16) :
    hexDigitVal (hexDigitChar n) = some n := by
  interval_cases n <;> decide

theorem hexVal_hexToken (b : Nat) (h : b < 256) :
    hexVal (hexToken b) = some b := by
  have h1 : b / 16 < 16 := Nat.div_lt_of_lt_mul (by omega)
  have h2 : b % 16 < 16 := Nat.mod_lt _ (by omega)
  have e1 := hexDigitVal_hexDigitChar _ h1
  have e2 := hexDigitVal_hexDigitChar _ h2
  simp [hexVal, hexToken, e1, e2]
  omega

theorem tok_map_hexToken (bs : List Nat) (i : Nat) (hi : i < bs.length)
    (hb : ∀ b ∈ bs, b < 256) :
    tok (bs.map hexToken) i = some (bs.getD i 0) := by
  have hget : (bs.map hexToken)[i]? = some (hexToken bs[i]) := by
    simp [List.getElem?_map, List.getElem?_eq_getElem hi]
  have hlt : bs[i] < 256 := hb _ (bs.getElem_mem hi)
  simp [tok, hget, hexVal_hexToken _ hlt, List.getD_eq_getElem?_getD,
    List.getElem?_eq_getElem hi]

theorem toUpper_hexDigitCharLower (n : Nat) (h : n < 16) :
    Char.toUpper (hexDigitCharLower n) = hexDigitChar n := by
  interval_cases n <;> decide

theorem pairUp_strUpper_hexlify (chunk : List Nat)
    (hb : ∀ b ∈ chunk, b < 256) :
    pairUp (strUpper (hexlify chunk)) = chunk.map hexToken := by
  induction chunk with
  | nil => rfl
  | cons b rest ih =>
    have hblt : b < 256 := hb b (List.mem_cons_self b rest)
    have h1 : b / 16 < 16 := Nat.div_lt_of_lt_mul (by omega)
    have h2 : b % 16 < 16 := Nat.mod_lt _ (by omega)
    have ihr := ih fun x hx => hb x (List.mem_cons_of_mem b hx)
    have hstep : strUpper (hexlify (b :: rest)) =
        Char.toUpper (hexDigitCharLower (b / 16)) ::
          Char.toUpper (hexDigitCharLower (b % 16)) :: strUpper (hexlify rest) := by
      simp only [hexlify, List.flatMap_cons, strUpper, List.map_append,
        List.map_cons, List.map_nil, List.cons_append, List.nil_append]
    rw [hstep, toUpper_hexDigitCharLower _ h1, toUpper_hexDigitCharLower _ h2]
    show String.mk [hexDigitChar (b / 16), hexDigitChar (b % 16)] ::
        pairUp (strUpper (hexlify rest)) = List.map hexToken (b :: rest)
    rw [ihr]
    rfl

/-- C1: the claim states decode is total and bounds-safe, returning a
SensorEvent (UnknownFrame on unmatched headers) for every HexToken
sequence, never raising or indexing out of bounds. The code is not: it
indexes data[0] unconditionally, and deeper offsets after a matched
header, so the empty sequence, the 1-token sequence 96, and the 2-token
sequence 42 4D (a matched auto-report header shorter than the offsets it
requires) each raise IndexError, modelled here as `.error`. -/
theorem C1_decode_out_of_bounds :
    handle_data_read [] = .error [] ∧
    handle_data_read [hexToken 0x96] = .error [] ∧
    handle_data_read [hexToken 0x42, hexToken 0x4D] = .error [] :=
  ⟨rfl, rfl, rfl⟩

/-- C2 counterexample: on the exact 12-token input the claim gives,
42 4D 00 00 00 00 00 00 00 C8 00 96, the code reads tokens[6..9] =
00 00 00 C8 and yields AutoReading with pm25 = 0 and pm10 = 200, not
AutoReading with pm25 = 200 and pm10 = 150 as the claim asserts. -/
theorem C2_counterexample :
    handle_data_read (List.map hexToken
      [0x42, 0x4D, 0, 0, 0, 0, 0, 0, 0, 0xC8, 0, 0x96]) =
      .ok (.AutoReading 0 200, [.pm25 0, .pm10 200]) ∧
    SensorEvent.AutoReading 0 200 ≠ SensorEvent.AutoReading 200 150 :=
  ⟨rfl, by decide⟩

/-- C2 (amended): for every byte sequence long enough that tokens[6..9]
exist, whose first byte is 0x42 and second 0x4D, decode yields
AutoReading with pm25 = tokens[6]*256 + tokens[7] and
pm10 = tokens[8]*256 + tokens[9]; the particular input realising
AutoReading with pm25 = 200 and pm10 = 150 is the 10-token sequence
42 4D 00 00 00 00 00 C8 00 96 (see the witness), not the 12-token
sequence the claim gives. -/
theorem C2_auto_reading (bs : List Nat) (hb : ∀ b ∈ bs, b < 256)
    (hlen : 10 ≤ bs.length) (h0 : bs.getD 0 0 = 0x42)
    (h1 : bs.getD 1 0 = 0x4D) :
    handle_data_read (bs.map hexToken) =
      .ok (.AutoReading (bs.getD 6 0 * 256 + bs.getD 7 0)
             (bs.getD 8 0 * 256 + bs.getD 9 0),
           [.pm25 (bs.getD 6 0 * 256 + bs.getD 7 0),
            .pm10 (bs.getD 8 0 * 256 + bs.getD 9 0)]) := by
  have t0 := tok_map_hexToken bs 0 (by omega) hb
  have t1 := tok_map_hexToken bs 1 (by omega) hb
  have t6 := tok_map_hexToken bs 6 (by omega) hb
  have t7 := tok_map_hexToken bs 7 (by omega) hb
  have t8 := tok_map_hexToken bs 8 (by omega) hb
  have t9 := tok_map_hexToken bs 9 (by omega) hb
  rw [h0] at t0
  rw [h1] at t1
  simp [handle_data_read, t0, t1, t6, t7, t8, t9]

/-- C2 witness: the amended claim at the concrete 10-token input
42 4D 00 00 00 00 00 C8 00 96, giving pm25 = 200 and pm10 = 150. -/
theorem C2_auto_reading_witness :
    handle_data_read (List.map hexToken
      [0x42, 0x4D, 0, 0, 0, 0, 0, 0xC8, 0, 0x96]) =
      .ok (.AutoReading 200 150, [.pm25 200, .pm10 150]) := by
  have h := C2_auto_reading [0x42, 0x4D, 0, 0, 0, 0, 0, 0xC8, 0, 0x96]
    (by decide) (by decide) (by decide) (by decide)
  simpa using h

/-- C3: for every byte sequence long enough that tokens[3..6] exist,
beginning 0x40 0x05 0x04, decode yields OneshotReading with
pm25 = tokens[3]*256 + tokens[4] and pm10 = tokens[5]*256 + tokens[6];
in particular any input beginning 40 05 04 00 64 00 32 yields
OneshotReading with pm25 = 100 and pm10 = 50 (see the witness). -/
theorem C3_oneshot_reading (bs : List Nat) (hb : ∀ b ∈ bs, b < 256)
    (hlen : 7 ≤ bs.length) (h0 : bs.getD 0 0 = 0x40)
    (h1 : bs.getD 1 0 = 0x05) (h2 : bs.getD 2 0 = 0x04) :
    handle_data_read (bs.map hexToken) =
      .ok (.OneshotReading (bs.getD 3 0 * 256 + bs.getD 4 0)
             (bs.getD 5 0 * 256 + bs.getD 6 0),
           [.pm25 (bs.getD 3 0 * 256 + bs.getD 4 0),
            .pm10 (bs.getD 5 0 * 256 + bs.getD 6 0)]) := by
  have t0 := tok_map_hexToken bs 0 (by omega) hb
  have t1 := tok_map_hexToken bs 1 (by omega) hb
  have t2 := tok_map_hexToken bs 2 (by omega) hb
  have t3 := tok_map_hexToken bs 3 (by omega) hb
  have t4 := tok_map_hexToken bs 4 (by omega) hb
  have t5 := tok_map_hexToken bs 5 (by omega) hb
  have t6 := tok_map_hexToken bs 6 (by omega) hb
  rw [h0] at t0
  rw [h1] at t1
  rw [h2] at t2
  simp [handle_data_read, t0, t1, t2, t3, t4, t5, t6]

/-- C3 witness: the claim at the concrete input 40 05 04 00 64 00 32
extended by one extra byte, giving pm25 = 100 and pm10 = 50. -/
theorem C3_oneshot_reading_witness :
    handle_data_read (List.map hexToken [0x40, 0x05, 0x04, 0, 0x64, 0, 0x32, 0]) =
      .ok (.OneshotReading 100 50, [.pm25 100, .pm10 50]) := by
  have h := C3_oneshot_reading [0x40, 0x05, 0x04, 0, 0x64, 0, 0x32, 0]
    (by decide) (by decide) (by decide) (by decide) (by decide)
  simpa using h

/-- C4: for every byte sequence of length at least 2 whose first two
bytes are both 0x96 decode yields SensorError, and whose first two bytes
are both 0xA5 decode yields Ack; and the hex tokens are compared
case-insensitively as integers, so the literal lowercase token lists
96 96 and a5 a5 classify identically to their uppercase forms. -/
theorem C4_error_ack (bs : List Nat) (hb : ∀ b ∈ bs, b < 256)
    (hlen : 2 ≤ bs.length) :
    (bs.getD 0 0 = 0x96 → bs.getD 1 0 = 0x96 →
      handle_data_read (bs.map hexToken) = .ok (.SensorError, [])) ∧
    (bs.getD 0 0 = 0xA5 → bs.getD 1 0 = 0xA5 →
      handle_data_read (bs.map hexToken) = .ok (.Ack, [])) ∧
    handle_data_read ["96", "96"] = .ok (.SensorError, []) ∧
    handle_data_read ["a5", "a5"] = .ok (.Ack, []) ∧
    handle_data_read ["A5", "A5"] = .ok (.Ack, []) := by
  have t0 := tok_map_hexToken bs 0 (by omega) hb
  have t1 := tok_map_hexToken bs 1 (by omega) hb
  refine ⟨fun h0 h1 => ?e, fun h0 h1 => ?a, rfl, rfl, rfl⟩
  case e =>
    rw [h0] at t0
    rw [h1] at t1
    simp [handle_data_read, t0, t1]
  case a =>
    rw [h0] at t0
    rw [h1] at t1
    simp [handle_data_read, t0, t1]

/-- C4 witness: the claim at the concrete inputs 96 96 and A5 A5. -/
theorem C4_error_ack_witness :
    handle_data_read (List.map hexToken [0x96, 0x96]) =
      .ok (.SensorError, []) ∧
    handle_data_read (List.map hexToken [0xA5, 0xA5]) =
      .ok (.Ack, []) := by
  have he := C4_error_ack [0x96, 0x96] (by decide) (by decide)
  have ha := C4_error_ack [0xA5, 0xA5] (by decide) (by decide)
  exact ⟨he.1 (by decide) (by decide), ha.2.1 (by decide) (by decide)⟩

/-- C5: a non-empty chunk of n bytes drained in one loop iteration is
emitted as exactly one token list of exactly n HexTokens, the i-th token
being the 2-character uppercase hexadecimal representation of the i-th
drained byte; an iteration whose drain yields an empty buffer emits
nothing. -/
theorem C5_drain_tokens (chunk : List Nat) (hb : ∀ b ∈ chunk, b < 256)
    (hne : chunk ≠ []) :
    drainEmits chunk = [chunk.map hexToken] ∧
    (drainEmits chunk).length = 1 ∧
    (∀ ts ∈ drainEmits chunk, ts.length = chunk.length ∧
      ∀ i, i < chunk.length → ts.getD i "" = hexToken (chunk.getD i 0)) ∧
    drainEmits [] = [] := by
  have hmain : drainEmits chunk = [chunk.map hexToken] := by
    cases chunk with
    | nil => exact absurd rfl hne
    | cons b rest => simp [drainEmits, pairUp_strUpper_hexlify _ hb]
  refine ⟨hmain, by simp [hmain], ?_, rfl⟩
  intro ts hts
  rw [hmain] at hts
  simp only [List.mem_singleton] at hts
  subst hts
  refine ⟨by simp, ?_⟩
  intro i hi
  rw [List.getD_eq_getElem?_getD, List.getD_eq_getElem?_getD,
    List.getElem?_map, List.getElem?_eq_getElem hi]
  simp

/-- C5 witness: the claim at the concrete 2-byte chunk 42 4D: exactly one
emission carrying the token list 42 4D. -/
theorem C5_drain_tokens_witness :
    drainEmits [0x42, 0x4D] = [List.map hexToken [0x42, 0x4D]] :=
  (C5_drain_tokens [0x42, 0x4D] (by decide) (by decide)).1

/-- C6: each of the five commands encodes to exactly its fixed payload
bytes (looked up by symbolic name, with no failure mode on the closed
table), and looking a command up again by the encoded value and
re-encoding gives back the same bytes (table round-trip). -/
theorem C6_command_table :
    send_cmd "ReadParticleMeasuringResult" = some [0x68, 0x01, 0x04, 0x93] ∧
    send_cmd "StartParticleMeasurement" = some [0x68, 0x01, 0x01, 0x96] ∧
    send_cmd "StopParticleMeasurement" = some [0x68, 0x01, 0x02, 0x95] ∧
    send_cmd "EnableAutoSend" = some [0x68, 0x01, 0x40, 0x57] ∧
    send_cmd "StopAutoSend" = some [0x68, 0x01, 0x20, 0x77] ∧
    (∀ c ∈ CMD.all, (CMD.fromValue (CMD.value c)).map CMD.value =
      some (CMD.value c)) ∧
    (∀ c ∈ CMD.all, (CMD.fromName (CMD.name c)).map CMD.value =
      some (CMD.value c)) := by decide

/-- C7: the close path signals the reader to stop (alive = false,
terminate, wait for termination) before closing the serial handle, and
only then emits the reset notifications, so the last pm25 and pm10
values notified after close() are each exactly 0. -/
theorem C7_close_sequence :
    closeSequence = [TeardownStep.setAliveFalse, TeardownStep.terminateReader,
      TeardownStep.waitReader, TeardownStep.closeHandle,
      TeardownStep.emitPm10 0, TeardownStep.emitPm25 0] ∧
    lastPm25 closeSequence = some 0 ∧
    lastPm10 closeSequence = some 0 := by decide

/-- C8: the reader loop checks the alive flag at the top of every
iteration; at the first iteration whose alive check reads false, the
loop terminates and the remaining script contributes nothing (the
observable events equal those of the run truncated at that iteration),
and a run starting at a false check produces no events at all. -/
theorem C8_alive_stops_loop (pre : List IterInput) (it : IterInput)
    (rest : List IterInput) (h : it.alive = false) :
    DataCollector_run (pre ++ it :: rest) = DataCollector_run (pre ++ [it]) ∧
    DataCollector_run (it :: rest) = [] := by
  constructor
  · induction pre with
    | nil => simp [DataCollector_run, h]
    | cons p ps ih =>
      simp only [List.cons_append, DataCollector_run, List.append_eq, ih]
  · simp [DataCollector_run, h]

/-- C8 witness: the claim at a concrete 3-iteration script whose second
iteration reads alive = false: the third iteration contributes nothing
and a run starting at the false check emits nothing. -/
theorem C8_alive_stops_loop_witness :
    DataCollector_run ([⟨true, [0x42], false⟩] ++
      (⟨false, [0x96], false⟩ : IterInput) :: [⟨true, [0xA5], false⟩]) =
      DataCollector_run ([⟨true, [0x42], false⟩] ++ [⟨false, [0x96], false⟩]) ∧
    DataCollector_run ((⟨false, [0x96], false⟩ : IterInput) ::
      [⟨true, [0xA5], false⟩]) = [] :=
  C8_alive_stops_loop [⟨true, [0x42], false⟩] ⟨false, [0x96], false⟩
    [⟨true, [0xA5], false⟩] rfl

/-- C9: an I/O exception raised inside a live loop iteration is logged,
no data_read event is emitted for that iteration, the reader terminates
at once (the remaining script contributes nothing, no retry), and its
termination runs the connection-closed cleanup close_connection. -/
theorem C9_io_error_terminates (it : IterInput) (rest : List IterInput)
    (ha : it.alive = true) (he : it.ioError = true) :
    DataCollector_run (it :: rest) = [ReaderEvent.logException] ∧
    (∀ ts, ReaderEvent.emitData ts ∉ DataCollector_run (it :: rest)) ∧
    close_connection = [TeardownStep.closeHandle, TeardownStep.emitPm10 0,
      TeardownStep.emitPm25 0] := by
  have hrun : DataCollector_run (it :: rest) = [ReaderEvent.logException] := by
    simp [DataCollector_run, ha, he]
  exact ⟨hrun, fun ts => by simp [hrun], rfl⟩

/-- C9 witness: the claim at a concrete script whose first live iteration
raises: only the logged exception is observed. -/
theorem C9_io_error_terminates_witness :
    DataCollector_run ((⟨true, [0x42], true⟩ : IterInput) ::
      [⟨true, [0xA5], false⟩]) = [ReaderEvent.logException] :=
  (C9_io_error_terminates ⟨true, [0x42], true⟩ [⟨true, [0xA5], false⟩]
    rfl rfl).1

/-- C10 counterexample: the claim asserts reading-updated signals are
emitted only for frames classified OneshotReading or AutoReading, but on
the reachable 8-token input 42 4D 00 00 00 00 00 C8 the auto branch
emits pm25 = tokens[6]*256 + tokens[7] = 200 and then raises IndexError
reading tokens[8], so a non-empty reading-updated emission occurs while
the handling classifies the frame as nothing at all. -/
theorem C10_counterexample :
    handle_data_read (List.map hexToken [0x42, 0x4D, 0, 0, 0, 0, 0, 0xC8]) =
      .error [Emit.pm25 200] ∧
    ([Emit.pm25 200] : List Emit) ≠ [] :=
  ⟨rfl, by decide⟩

/-- C10 (amended): a frame whose handling completes with classification
SensorError, Ack or UnknownFrame emits no pm25 or pm10 reading-updated
signal at all, and among completed handlings any frame that emits a
reading-updated signal was classified OneshotReading or AutoReading; a
handling that aborts with an exception never reaches a classification
and can have emitted at most one pm25 signal (after a matched reading
header whose pm10 offsets are missing), never a pm10 signal. -/
theorem C10_no_emit_non_reading (data : List String) :
    (∀ ev emits, handle_data_read data = .ok (ev, emits) →
      ((ev = .SensorError ∨ ev = .Ack ∨ ev = .UnknownFrame) → emits = []) ∧
      (emits ≠ [] →
        (∃ a b, ev = .OneshotReading a b) ∨
        (∃ a b, ev = .AutoReading a b))) ∧
    (∀ emits, handle_data_read data = .error emits →
      emits = [] ∨ ∃ v, emits = [Emit.pm25 v]) := by
  constructor
  · intro ev emits h
    unfold handle_data_read at h
    iterate 12 (all_goals try split at h)
    all_goals try simp_all
    all_goals
      (obtain ⟨hev, hem⟩ := h
       subst hev
       subst hem
       exact ⟨fun hcl => by rcases hcl with h1 | h1 | h1 <;> simp at h1,
              fun hne => by
                first
                  | exact Or.inl ⟨_, _, rfl⟩
                  | exact Or.inr ⟨_, _, rfl⟩⟩)
  · intro emits h
    unfold handle_data_read at h
    iterate 12 (all_goals try split at h)
    all_goals try simp_all
    all_goals
      (subst h
       exact Or.inr ⟨_, rfl⟩)

/-- C10 witness: the amended claim at the concrete Ack frame A5 A5,
whose handling completes and emits nothing. -/
theorem C10_no_emit_non_reading_witness :
    ((SensorEvent.Ack = SensorEvent.SensorError ∨
      SensorEvent.Ack = SensorEvent.Ack ∨
      SensorEvent.Ack = SensorEvent.UnknownFrame) → ([] : List Emit) = []) ∧
    (([] : List Emit) ≠ [] →
      (∃ a b, SensorEvent.Ack = SensorEvent.OneshotReading a b) ∨
      (∃ a b, SensorEvent.Ack = SensorEvent.AutoReading a b)) :=
  (C10_no_emit_non_reading ["A5", "A5"]).1 SensorEvent.Ack [] rfl

